import Mathlib

/-!
Verification development for the survey-reward pipeline
(Tally form webhook → classifier → Supabase store → Supabase insert webhook
→ Stripe promo code → Mailgun email).

The TypeScript sources are shallowly embedded: each JavaScript helper used by
the classification and orchestration logic becomes a total Lean function, the
three coexisting classifier variants are kept separate (field-id variant,
label-pattern variant, bot-detection variant), and the two HTTP handlers are
modeled as state-passing functions over an explicit store.  JavaScript strings
become Lean strings with JS-faithful helpers over their character lists (the
built-in String operations of Lean do not reduce in the kernel); JavaScript
numbers on the timing path are modeled as exact integer milliseconds.
-/

/-- Substring containment over character lists: true when the pattern occurs
contiguously in the haystack.  The empty pattern is contained everywhere,
matching JavaScript includes. -/
def listContainsSub (pat : List Char) : List Char → Bool
  | [] => pat.isEmpty
  | c :: t => pat.isPrefixOf (c :: t) || listContainsSub pat t

/-- Models JavaScript s.includes(pat). -/
def jsIncludes (s pat : String) : Bool :=
  listContainsSub pat.data s.data

/-- Models JavaScript s.toLowerCase() on the ASCII strings the code handles. -/
def jsToLower (s : String) : String :=
  String.mk (s.data.map Char.toLower)

/-- Models JavaScript s.toUpperCase() on the ASCII strings the code handles. -/
def jsToUpper (s : String) : String :=
  String.mk (s.data.map Char.toUpper)

/-- Whitespace recognizer used by the trim model. -/
def isJsSpace (c : Char) : Bool :=
  c == ' ' || c == '\t' || c == '\n' || c == '\r'

/-- Models JavaScript s.trim(): removes whitespace from both ends. -/
def jsTrim (s : String) : String :=
  String.mk (((s.data.dropWhile isJsSpace).reverse.dropWhile isJsSpace).reverse)

/-- Models JavaScript s.substring(a, b) for a ≤ b (clamped at the end). -/
def jsSubstring (s : String) (a b : Nat) : String :=
  String.mk ((s.data.drop a).take (b - a))

/-- Shapes a Tally answer value can take (the value: unknown field of a
TallyAnswer in the source): plain string, number, boolean, null, undefined,
array of values, or an option object carrying an optional id property. -/
inductive TallyValue where
  | vStr (s : String)
  | vNum (n : Int)
  | vBool (b : Bool)
  | vNull
  | vUndefined
  | vArr (elems : List TallyValue)
  | vObj (id : Option String)

mutual
/-- Models JavaScript String(v) / v.toString() on the payload value shapes:
strings pass through, numbers and booleans print, null and undefined print
their names, arrays join their elements with commas (null and undefined
elements becoming empty), objects print as [object Object]. -/
def jsToString : TallyValue → String
  | .vStr s => s
  | .vNum n => toString n
  | .vBool b => cond b "true" "false"
  | .vNull => "null"
  | .vUndefined => "undefined"
  | .vArr elems => String.intercalate "," (jsArrayElems elems)
  | .vObj _ => "[object Object]"

/-- Element rendering for the array case of jsToString. -/
def jsArrayElems : List TallyValue → List String
  | [] => []
  | .vNull :: t => "" :: jsArrayElems t
  | .vUndefined :: t => "" :: jsArrayElems t
  | x :: t => jsToString x :: jsArrayElems t
end

/-- JavaScript truthiness of a payload value (used by the honeypot check). -/
def jsTruthy : TallyValue → Bool
  | .vStr s => s != ""
  | .vNum n => n != 0
  | .vBool b => b
  | .vNull => false
  | .vUndefined => false
  | .vArr _ => true
  | .vObj _ => true

/-- Models the test value !== null && value !== undefined from the
label-pattern variant of checkAttentionAnswer. -/
def isAnswered : TallyValue → Bool
  | .vNull => false
  | .vUndefined => false
  | _ => true

/-- Metadata of a Tally field: the field object with id, title and type in
the TallyAnswer interface of the validation modules. -/
structure TallyFieldMeta where
  id : String
  title : String
  type : String

/-- One answered question of a submission: field metadata plus raw value
(the TallyAnswer interface). -/
structure TallyAnswer where
  field : TallyFieldMeta
  value : TallyValue

/-- Internal submission shape produced by transformTallyPayload.  The two
timestamp strings are modeled as exact epoch milliseconds, which is what the
source reads off them via Date.getTime(). -/
structure TallySubmission where
  responseId : String
  createdAtMs : Int
  submittedAtMs : Int
  fields : List TallyAnswer

/-- Union of the classification tags appearing across the variants
(valid | duplicate | attention_fail in the two three-way variants,
valid | bot | attention_fail in the bot-detection variant). -/
inductive Classification where
  | valid
  | duplicate
  | attention_fail
  | bot
  deriving Repr, DecidableEq

/-- Result record of validateSubmission: classification plus reason. -/
structure ClassificationResult where
  classification : Classification
  reason : String
  deriving Repr, DecidableEq

/-- Predicate of the find callback in extractEmail: declared type is
INPUT_EMAIL, or the field id contains email case-insensitively, or the field
title contains email case-insensitively. -/
def isEmailField (f : TallyAnswer) : Bool :=
  f.field.type == "INPUT_EMAIL" ||
    jsIncludes (jsToLower f.field.id) "email" ||
    jsIncludes (jsToLower f.field.title) "email"

/-- Models extractEmail, identical in all three validation modules: the first
field matching isEmailField yields its value lower-cased and trimmed when that
value is a plain string, otherwise the result is null. -/
def extractEmail (fields : List TallyAnswer) : Option String :=
  match fields.find? isEmailField with
  | some f =>
    match f.value with
    | .vStr s => some (jsTrim (jsToLower s))
    | _ => none
  | none => none

/-- Value normalization of checkAttentionAnswer in the field-id variants
(parts with the object branch): strings pass through, arrays take the first
element rendered to a string (empty when absent, null or undefined), non-null
objects take their id property (empty when absent), everything else is
stringified.  Null itself falls to the stringify branch because the source
guards the object branch with value !== null. -/
def normalizeTallyValue (v : TallyValue) : String :=
  match v with
  | .vStr s => s
  | .vArr elems =>
    match elems.head? with
    | none => ""
    | some .vNull => ""
    | some .vUndefined => ""
    | some x => jsToString x
  | .vObj oid => oid.getD ""
  | x => jsToString x

/-- Value normalization of checkAttentionAnswer in the label-pattern variant,
which has no object branch: strings pass through, arrays take the first
element rendered to a string, everything else is stringified. -/
def normalizeTallyValueNoObj (v : TallyValue) : String :=
  match v with
  | .vStr s => s
  | .vArr elems =>
    match elems.head? with
    | none => ""
    | some .vNull => ""
    | some .vUndefined => ""
    | some x => jsToString x
  | x => jsToString x

namespace FieldIdVariant

/-- Configured attention-check field id of the field-id variant. -/
def ATTENTION_CHECK_FIELD_ID : String := "attention_check"

/-- Configured correct answer token of the field-id variant. -/
def ATTENTION_CHECK_CORRECT_ANSWER : String := "1"

/-- The find call of checkAttentionAnswer: matches on the configured field id
or on the title containing the phrase if you read this. -/
def findAttentionField (fields : List TallyAnswer) : Option TallyAnswer :=
  fields.find? (fun f =>
    f.field.id == ATTENTION_CHECK_FIELD_ID ||
      jsIncludes (jsToLower f.field.title) "if you read this")

/-- Models checkAttentionAnswer of the field-id variant: when no attention
field is found the check passes; otherwise the normalized answer passes when
it equals the configured token, contains the character 1, or contains the
phrase option 1 case-insensitively. -/
def checkAttentionAnswer (fields : List TallyAnswer) : Bool :=
  match findAttentionField fields with
  | none => true
  | some f =>
    let answer := normalizeTallyValue f.value
    answer == ATTENTION_CHECK_CORRECT_ANSWER ||
      jsIncludes answer "1" ||
      jsIncludes (jsToLower answer) "option 1"

/-- Models validateSubmission of the field-id variant.  The duplicate lookup
checkDuplicateEmail is passed in as a function, mirroring the call to the
store adapter; the truthiness guard if (email) skips the lookup both when no
email was extracted and when the extracted email is the empty string. -/
def validateSubmission (dup : String → Bool) (s : TallySubmission) :
    ClassificationResult :=
  let isDup :=
    match extractEmail s.fields with
    | some email => email != "" && dup email
    | none => false
  if isDup then
    ⟨.duplicate, "Duplicate email submission detected"⟩
  else if !(checkAttentionAnswer s.fields) then
    ⟨.attention_fail, "Failed attention check question"⟩
  else
    ⟨.valid, "All validation checks passed"⟩

end FieldIdVariant

namespace LabelVariant

/-- Configured attention-check label pattern of the label-pattern variant. -/
def ATTENTION_CHECK_LABEL_PATTERN : String := "have you been paying attention"

/-- Configured correct answer token of the label-pattern variant.  Declared in
the source but never consulted by checkAttentionAnswer, which compares against
the known Yes option UUIDs instead. -/
def ATTENTION_CHECK_CORRECT_ANSWER : String := "Yes"

/-- The four known Yes option UUIDs, one per form branch, listed in
checkAttentionAnswer of the label-pattern variant. -/
def yesOptionIds : List String :=
  ["d52b3b5d-e0cd-454c-afa3-15276ea5b2ef",
   "ec4062ef-8d35-40f9-8afc-0bb67d41b086",
   "875f4d5a-728d-40ce-91ef-ac72f9067627",
   "8d7272ab-3489-48fe-bc74-63573d026123"]

/-- The find call of checkAttentionAnswer in the label-pattern variant: a
truthy title containing the configured pattern case-insensitively, with a
value that is neither null nor undefined. -/
def findAttentionField (fields : List TallyAnswer) : Option TallyAnswer :=
  fields.find? (fun f =>
    f.field.title != "" &&
      jsIncludes (jsToLower f.field.title) ATTENTION_CHECK_LABEL_PATTERN &&
      isAnswered f.value)

/-- Models checkAttentionAnswer of the label-pattern variant: when no answered
attention field is found the check fails; otherwise it passes exactly when the
normalized answer is one of the known Yes option UUIDs. -/
def checkAttentionAnswer (fields : List TallyAnswer) : Bool :=
  match findAttentionField fields with
  | none => false
  | some f => yesOptionIds.contains (normalizeTallyValueNoObj f.value)

/-- Models validateSubmission of the label-pattern variant; structurally
identical to the field-id variant apart from the attention check. -/
def validateSubmission (dup : String → Bool) (s : TallySubmission) :
    ClassificationResult :=
  let isDup :=
    match extractEmail s.fields with
    | some email => email != "" && dup email
    | none => false
  if isDup then
    ⟨.duplicate, "Duplicate email submission detected"⟩
  else if !(checkAttentionAnswer s.fields) then
    ⟨.attention_fail, "Failed attention check question"⟩
  else
    ⟨.valid, "All validation checks passed"⟩

end LabelVariant

namespace BotVariant

/-- Minimum human submission time in seconds configured in the bot variant. -/
def MIN_SUBMISSION_TIME_SECONDS : Int := 10

/-- Configured honeypot field id of the bot variant. -/
def HONEYPOT_FIELD_ID : String := "honeypot"

/-- Models calculateSubmissionTime, kept in exact milliseconds: the source
computes (submitted − created) / 1000 as a float; comparisons against the
10 second threshold are done here against 10000 milliseconds, which is
equivalent. -/
def calculateSubmissionTimeMs (createdAtMs submittedAtMs : Int) : Int :=
  submittedAtMs - createdAtMs

/-- Models Number.toFixed(1) applied to the elapsed seconds for nonnegative
elapsed times: milliseconds are rounded to tenths of a second and printed with
one fractional digit. -/
def toFixed1Ms (ms : Int) : String :=
  let tenths : Int := (ms + 50).ediv 100
  toString (tenths.ediv 10) ++ "." ++ toString (tenths.emod 10)

/-- Models checkHoneypot: the honeypot field, when present with a truthy
value, marks the submission as a bot. -/
def checkHoneypot (fields : List TallyAnswer) : Bool :=
  match fields.find? (fun f => f.field.id == HONEYPOT_FIELD_ID) with
  | some f => jsTruthy f.value
  | none => false

/-- The find call of checkAttentionAnswer in the bot variant; same criteria as
the field-id variant. -/
def findAttentionField (fields : List TallyAnswer) : Option TallyAnswer :=
  fields.find? (fun f =>
    f.field.id == "attention_check" ||
      jsIncludes (jsToLower f.field.title) "if you read this")

/-- Models checkAttentionAnswer of the bot variant, textually identical to the
field-id variant in the source. -/
def checkAttentionAnswer (fields : List TallyAnswer) : Bool :=
  match findAttentionField fields with
  | none => true
  | some f =>
    let answer := normalizeTallyValue f.value
    answer == "1" ||
      jsIncludes answer "1" ||
      jsIncludes (jsToLower answer) "option 1"

/-- Models validateSubmission of the bot-detection variant.  Rule order as in
the source: honeypot first, then the timing check, then the duplicate-email
lookup (folded into the bot outcome), then the attention check. -/
def validateSubmission (dup : String → Bool) (s : TallySubmission) :
    ClassificationResult :=
  if checkHoneypot s.fields then
    ⟨.bot, "Honeypot field was filled"⟩
  else
    let submissionTimeMs := calculateSubmissionTimeMs s.createdAtMs s.submittedAtMs
    if submissionTimeMs < MIN_SUBMISSION_TIME_SECONDS * 1000 then
      ⟨.bot, "Submission too fast: " ++ toFixed1Ms submissionTimeMs ++ " seconds"⟩
    else
      let isDup :=
        match extractEmail s.fields with
        | some email => email != "" && dup email
        | none => false
      if isDup then
        ⟨.bot, "Duplicate email submission detected"⟩
      else if !(checkAttentionAnswer s.fields) then
        ⟨.attention_fail, "Failed attention check question"⟩
      else
        ⟨.valid, "All validation checks passed"⟩

end BotVariant

namespace Mail

/-- Environment configuration read by the Mailgun module: MAILGUN_API_KEY,
MAILGUN_DOMAIN and MAILGUN_FROM_EMAIL process variables, each possibly
unset. -/
structure MailgunEnv where
  apiKey : Option String
  domain : Option String
  fromEmail : Option String

/-- Result record of the two send functions (the EmailResult interface). -/
structure EmailResult where
  success : Bool
  messageId : Option String := none
  error : Option String := none
  deriving Repr, DecidableEq

/-- Models getMailgunClient: yields a client handle when MAILGUN_API_KEY is
set and throws otherwise.  An Except.error value models the thrown
exception. -/
def getMailgunClient (env : MailgunEnv) : Except String Unit :=
  match env.apiKey with
  | none => .error "Missing MAILGUN_API_KEY environment variable"
  | some _ => .ok ()

/-- Models getDomain: yields MAILGUN_DOMAIN when set and throws otherwise. -/
def getDomain (env : MailgunEnv) : Except String String :=
  match env.domain with
  | none => .error "Missing MAILGUN_DOMAIN environment variable"
  | some d => .ok d

/-- Models getFromEmail: MAILGUN_FROM_EMAIL when set, otherwise a noreply
address on the configured domain; calls getDomain and so throws when the
domain is unset. -/
def getFromEmail (env : MailgunEnv) : Except String String :=
  match getDomain env with
  | .error e => .error e
  | .ok d =>
    match env.fromEmail with
    | some fe => .ok fe
    | none => .ok ("noreply@" ++ d)

/-- Models sendRewardEmail.  The sendOutcome argument stands for the result of
the provider call mg.messages.create: Except.ok carries the message id of a
delivered request and Except.error the message of a rejected one.  As in the
source, getMailgunClient, getDomain and getFromEmail run before the try block,
so a missing configuration value propagates outward as an Except.error of the
whole function; only the provider call itself is wrapped, its failure being
captured into the result record. -/
def sendRewardEmail (env : MailgunEnv) (email promoCode : String)
    (sendOutcome : Except String String) : Except String EmailResult :=
  match getMailgunClient env with
  | .error e => .error e
  | .ok _ =>
    match getDomain env with
    | .error e => .error e
    | .ok _ =>
      match getFromEmail env with
      | .error e => .error e
      | .ok _ =>
        let _ := email
        let _ := promoCode
        match sendOutcome with
        | .ok mid => .ok { success := true, messageId := some mid }
        | .error e => .ok { success := false, error := some e }

/-- Models sendAbuseEmail; identical control flow to sendRewardEmail with the
static abuse template. -/
def sendAbuseEmail (env : MailgunEnv) (email : String)
    (sendOutcome : Except String String) : Except String EmailResult :=
  match getMailgunClient env with
  | .error e => .error e
  | .ok _ =>
    match getDomain env with
    | .error e => .error e
    | .ok _ =>
      match getFromEmail env with
      | .error e => .error e
      | .ok _ =>
        let _ := email
        match sendOutcome with
        | .ok mid => .ok { success := true, messageId := some mid }
        | .error e => .ok { success := false, error := some e }

end Mail

namespace StripeM

/-- Environment configuration read by the Stripe module: STRIPE_SECRET_KEY
and STRIPE_COUPON_ID, each possibly unset. -/
structure StripeEnv where
  secretKey : Option String
  couponId : Option String

/-- Outcome of one stripe.promotionCodes.create call: success with the created
code, a StripeInvalidRequestError (whose isCollision flag records whether the
underlying cause was a code collision — the source cannot observe this flag,
it only tests the error class), or an error of any other class. -/
inductive StripeOutcome where
  | ok (code : String)
  | errInvalidRequest (isCollision : Bool) (msg : String)
  | errOther (msg : String)
  deriving Repr, DecidableEq

/-- Fixed prefix of generated promotion codes. -/
def codePrefix : String := "SURVEY"

/-- First-attempt code: the prefix joined to substring(2, 8) of the first
random string, upper-cased. -/
def firstCode (rand1 : String) : String :=
  codePrefix ++ "-" ++ jsToUpper (jsSubstring rand1 2 8)

/-- Retry code: the prefix joined to the longer substring(2, 10) of the second
random string, upper-cased. -/
def retryCode (rand2 : String) : String :=
  codePrefix ++ "-" ++ jsToUpper (jsSubstring rand2 2 10)

/-- How an attempt outcome propagates to the caller when it is the final one:
success returns the code, either error class is thrown (the retry attempt sits
outside any catch). -/
def outcomeToResult : StripeOutcome → Except String String
  | .ok code => .ok code
  | .errInvalidRequest _ m => .error m
  | .errOther m => .error m

/-- Boolean test mirroring error instanceof Stripe.errors.StripeInvalidRequestError. -/
def isInvalidRequest : StripeOutcome → Bool
  | .errInvalidRequest _ _ => true
  | _ => false

/-- Models createPromoCode.  The attempt argument stands for the provider:
given the code string passed to stripe.promotionCodes.create it yields that
call outcome.  rand1 and rand2 are the two Math.random().toString(36) draws.
Returns the overall result (Except.error modeling an uncaught throw) paired
with the number of create calls performed.  Missing environment variables
throw before any attempt, as in the source where getStripeClient and
getCouponId run outside the try block. -/
def createPromoCode (env : StripeEnv) (attempt : String → StripeOutcome)
    (rand1 rand2 : String) : Except String String × Nat :=
  match env.secretKey with
  | none => (.error "Missing STRIPE_SECRET_KEY environment variable", 0)
  | some _ =>
    match env.couponId with
    | none => (.error "Missing STRIPE_COUPON_ID environment variable", 0)
    | some _ =>
      match attempt (firstCode rand1) with
      | .ok code => (.ok code, 1)
      | .errInvalidRequest _ _ => (outcomeToResult (attempt (retryCode rand2)), 2)
      | .errOther m => (.error m, 1)

end StripeM

namespace Store

/-- Notification kind column (email_type): reward or abuse, nullable. -/
inductive EmailType where
  | reward
  | abuse
  deriving Repr, DecidableEq

/-- Stored shape of one answer inside the answers document: title, type and
raw value, keyed by field id (fieldsToAnswers in the validation modules). -/
structure StoredAnswer where
  title : String
  type : String
  value : TallyValue

/-- Models fieldsToAnswers: the answers document as an association list from
field id to stored answer. -/
def fieldsToAnswers (fields : List TallyAnswer) : List (String × StoredAnswer) :=
  fields.map (fun f => (f.field.id, ⟨f.field.title, f.field.type, f.value⟩))

/-- One row of the submissions table, with the column defaults of the SQL
schema: promo_code NULL, email_sent FALSE, email_type NULL,
submission_time_seconds NULL.  The generated primary key id is modeled by a
surrogate string assigned at insertion. -/
structure SubmissionRow where
  id : String := ""
  email : String
  tally_response_id : String
  answers : List (String × StoredAnswer) := []
  classification : Classification
  classification_reason : Option String := none
  promo_code : Option String := none
  email_sent : Bool := false
  email_type : Option EmailType := none
  submission_time_seconds : Option Int := none

/-- Models insertSubmission together with the UNIQUE NOT NULL constraint on
tally_response_id declared in the SQL schema: when a row with the same
tally_response_id already exists the insert fails at the persistence layer
(insertSubmission then throws, modeled by Except.error) and the table is
unchanged; otherwise the row is appended with a fresh surrogate primary key
(the database generates it via gen_random_uuid). -/
def insertSubmission (db : List SubmissionRow) (r : SubmissionRow) :
    Except String (List SubmissionRow) :=
  if db.any (fun x => x.tally_response_id == r.tally_response_id) then
    .error "Failed to insert submission: duplicate key value violates unique constraint"
  else
    .ok (db ++ [{ r with id := toString db.length }])

/-- Models checkDuplicateEmail: any existing row whose email column equals the
query email lower-cased. -/
def checkDuplicateEmail (db : List SubmissionRow) (email : String) : Bool :=
  db.any (fun r => r.email == jsToLower email)

/-- Models updateSubmissionWithReward: sets promo_code, email_sent and
email_type reward on the row with the given id. -/
def updateSubmissionWithReward (db : List SubmissionRow) (submissionId promoCode : String) :
    List SubmissionRow :=
  db.map (fun r =>
    if r.id == submissionId then
      { r with promo_code := some promoCode, email_sent := true,
               email_type := some .reward }
    else r)

/-- Models markAbuseEmailSent: sets email_sent and email_type abuse on the row
with the given id.  Present in the store adapter but not called by either
webhook handler. -/
def markAbuseEmailSent (db : List SubmissionRow) (submissionId : String) :
    List SubmissionRow :=
  db.map (fun r =>
    if r.id == submissionId then
      { r with email_sent := true, email_type := some .abuse }
    else r)

/-- Models getSubmissionById.  Imported by the Supabase webhook route but
never invoked there. -/
def getSubmissionById (db : List SubmissionRow) (id : String) :
    Option SubmissionRow :=
  db.find? (fun r => r.id == id)

end Store

namespace TallyRoute

/-- HTTP responses of the Tally webhook POST handler: 400 when no email is
extractable, 200 with the classification otherwise, 500 on a persistence
failure. -/
inductive TallyResponse where
  | badRequestNoEmail
  | okClassified (classification : Classification)
  | serverError
  deriving Repr, DecidableEq

/-- Row built by the insertSubmission calls of the handler: email, response
id, answers document, classification and reason; every other column keeps its
schema default.  The named route stores the option-resolved variant of the
answers mapping (tallyFieldsToAnswers); its content is not read by any later
operation, so the unresolved mapping is stored here. -/
def mkRow (email : String) (s : TallySubmission) (c : Classification)
    (reason : String) : Store.SubmissionRow :=
  { email := email,
    tally_response_id := s.responseId,
    answers := Store.fieldsToAnswers s.fields,
    classification := c,
    classification_reason := some reason }

/-- Models the POST handler of the Tally webhook route.  The classifier is
passed in as the validateSubmission function of whichever validation module is
linked, itself parameterized by the duplicate lookup, which the handler wires
to the current store contents.  Returns the HTTP response, the store after the
request, and the number of abuse email sends attempted.  The truthiness guard
if (!email) rejects both a missing and an empty extracted email; an insert
failure is caught by the outer handler and surfaces as a 500 with the store
unchanged, and in the attention_fail branch it also prevents the abuse email
send, which the source performs only after a successful insert. -/
def POST (classify : (String → Bool) → TallySubmission → ClassificationResult)
    (s : TallySubmission) (db : List Store.SubmissionRow) :
    TallyResponse × List Store.SubmissionRow × Nat :=
  match extractEmail s.fields with
  | none => (.badRequestNoEmail, db, 0)
  | some email =>
    if email == "" then (.badRequestNoEmail, db, 0)
    else
      let validationResult := classify (Store.checkDuplicateEmail db) s
      match validationResult.classification with
      | .valid =>
        match Store.insertSubmission db (mkRow email s .valid validationResult.reason) with
        | .ok db2 => (.okClassified .valid, db2, 0)
        | .error _ => (.serverError, db, 0)
      | .duplicate => (.okClassified .duplicate, db, 0)
      | .attention_fail =>
        match Store.insertSubmission db (mkRow email s .attention_fail validationResult.reason) with
        | .ok db2 => (.okClassified .attention_fail, db2, 1)
        | .error _ => (.serverError, db, 0)
      | .bot => (.okClassified .bot, db, 0)

end TallyRoute

namespace SupaRoute

/-- Record carried by a Supabase INSERT webhook payload: the inserted row as
of the event, with the columns the route reads. -/
structure SupabaseRecord where
  id : String
  email : String
  classification : Classification
  promo_code : Option String := none
  email_sent : Option Bool := none

/-- Payload of the Supabase webhook: event type, table, schema and record. -/
structure SupabasePayload where
  type : String
  table : String
  record : SupabaseRecord

/-- Downstream effects of the reward flow: the submissions store, every promo
code minted at Stripe, and every reward email send attempted. -/
structure RewardEffects where
  db : List Store.SubmissionRow
  mintedCodes : List String
  rewardEmailsSent : List String

/-- JavaScript truthiness of the optional promo_code column: set and
non-empty. -/
def jsTruthyOptStr : Option String → Bool
  | some s => s != ""
  | none => false

/-- HTTP responses of the Supabase webhook POST handler. -/
inductive SupaResponse where
  | ignored (message : String)
  | rewarded (promoCode : String) (emailSent : Bool)
  | serverError
  deriving Repr, DecidableEq

/-- Models the POST handler of the Supabase webhook route.  mintOutcome stands
for the result of createPromoCode on this invocation (Except.error modeling a
throw, caught by the outer handler as a 500) and emailSendOk for the success
flag of sendRewardEmail.  Filters in source order: non-INSERT events and other
tables are ignored, then non-valid classifications, then records already
carrying a truthy promo_code or email_sent flag — this last check reads the
webhook payload only.  On passing all filters a code is minted, a reward email
send is attempted, and the stored row is updated regardless of the email
outcome. -/
def POST (mintOutcome : Except String String) (emailSendOk : Bool)
    (p : SupabasePayload) (st : RewardEffects) : SupaResponse × RewardEffects :=
  if p.type != "INSERT" || p.table != "submissions" then
    (.ignored "Event ignored", st)
  else if p.record.classification != Classification.valid then
    (.ignored "Non-valid submission ignored", st)
  else if jsTruthyOptStr p.record.promo_code || p.record.email_sent.getD false then
    (.ignored "Already processed", st)
  else
    match mintOutcome with
    | .error _ => (.serverError, st)
    | .ok promoCode =>
      (.rewarded promoCode emailSendOk,
       { db := Store.updateSubmissionWithReward st.db p.record.id promoCode,
         mintedCodes := st.mintedCodes ++ [promoCode],
         rewardEmailsSent := st.rewardEmailsSent ++ [p.record.email] })

end SupaRoute

/-- Number of stored rows carrying a given external response id. -/
def responseCount (db : List Store.SubmissionRow) (rid : String) : Nat :=
  (db.filter (fun r => r.tally_response_id == rid)).length

/-- Statement helper for the notifier contract: a send function call produced
a returned result record (no outward throw) whose success flag is true, or
false with the failure captured in its error field. -/
def resultWellFormed : Except String Mail.EmailResult → Bool
  | .ok r => r.success || (!r.success && r.error.isSome)
  | .error _ => false

/-- Supabase INSERT payload for a freshly inserted valid row: as the row was
just created, its promo_code and email_sent columns hold their defaults, and
re-delivery of the same event carries this identical snapshot. -/
def c1Payload : SupaRoute.SupabasePayload :=
  ⟨"INSERT", "submissions", ⟨"row-1", "a@x.com", Classification.valid, none, some false⟩⟩

/-- Initial downstream state: empty store, no codes minted, no emails sent. -/
def c1State : SupaRoute.RewardEffects := ⟨[], [], []⟩

/-- Submission whose answered attention-check answer normalizes to the literal
configured token Yes of the label-pattern variant. -/
def c2Submission : TallySubmission :=
  ⟨"resp-c2", 0, 60000,
   [⟨⟨"q_attn", "Have you been paying attention?", "MULTIPLE_CHOICE"⟩, .vStr "Yes"⟩]⟩

/-- Submission whose attention answer is exactly the field-id variant token 1. -/
def c2FieldIdSubmission : TallySubmission :=
  ⟨"resp-w2a", 0, 60000,
   [⟨⟨"attention_check", "If you read this, select option 1", "MULTIPLE_CHOICE"⟩, .vStr "1"⟩]⟩

/-- The attention answer entry of c2FieldIdSubmission. -/
def c2FieldIdAnswer : TallyAnswer :=
  ⟨⟨"attention_check", "If you read this, select option 1", "MULTIPLE_CHOICE"⟩, .vStr "1"⟩

/-- Submission whose attention answer is a branch-1 Yes option UUID, delivered
as a one-element array as Tally does for multiple choice. -/
def c2LabelSubmission : TallySubmission :=
  ⟨"resp-w2b", 0, 60000,
   [⟨⟨"q_attn", "Have you been paying attention?", "MULTIPLE_CHOICE"⟩,
     .vArr [.vStr "d52b3b5d-e0cd-454c-afa3-15276ea5b2ef"]⟩]⟩

/-- The attention answer entry of c2LabelSubmission. -/
def c2LabelAnswer : TallyAnswer :=
  ⟨⟨"q_attn", "Have you been paying attention?", "MULTIPLE_CHOICE"⟩,
   .vArr [.vStr "d52b3b5d-e0cd-454c-afa3-15276ea5b2ef"]⟩

/-- Answer list whose first email-matching field (by id containing email) has
a non-string value, while a later field is the email-typed one. -/
def c3Fields : List TallyAnswer :=
  [⟨⟨"email_backup", "Backup contact", "TEXT"⟩, .vNum 42⟩,
   ⟨⟨"q1", "Your address", "INPUT_EMAIL"⟩, .vStr " A@X.com "⟩]

/-- A lone email-typed field with a string value. -/
def c3EmailAnswer : TallyAnswer :=
  ⟨⟨"q1", "Your address", "INPUT_EMAIL"⟩, .vStr " A@X.com "⟩

/-- Mailgun environment with the API key unset. -/
def c4EnvMissingKey : Mail.MailgunEnv := ⟨none, some "mg.example.com", none⟩

/-- Fully configured Mailgun environment. -/
def c4EnvFull : Mail.MailgunEnv :=
  ⟨some "key-123", some "mg.example.com", some "rewards@mg.example.com"⟩

/-- Stripe environment configured with a coupon id that the provider will
reject as missing. -/
def c5Env : StripeM.StripeEnv := ⟨some "sk_test_c5", some "co_missing"⟩

/-- Provider behavior: the first generated code triggers an invalid-request
error that is not a code collision (for example an unknown coupon id); any
other code is created successfully. -/
def c5Attempt : String → StripeM.StripeOutcome := fun c =>
  if c == "SURVEY-AAAAAA" then
    .errInvalidRequest false "No such coupon: co_missing"
  else
    .ok c

/-- Fully configured Stripe environment for the witness. -/
def c5EnvW : StripeM.StripeEnv := ⟨some "sk_test_w5", some "co_basic"⟩

/-- Provider that accepts every code on the first try. -/
def c5AttemptW : String → StripeM.StripeOutcome := fun c => .ok c

/-- Submission with a filled honeypot field, submitted 3 seconds after the
form was created. -/
def c6Submission : TallySubmission :=
  ⟨"resp-c6", 0, 3000,
   [⟨⟨"honeypot", "", "HIDDEN_FIELDS"⟩, .vStr "filled-by-bot"⟩]⟩

/-- Second fast honeypot submission, used to instantiate the amended rule
ordering statement. -/
def c6SubmissionW : TallySubmission :=
  ⟨"resp-w6", 0, 2000, [⟨⟨"honeypot", "", "HIDDEN_FIELDS"⟩, .vStr "x"⟩]⟩

/-- Submission whose attention-check field is present but unanswered: the
value is null, as Tally sends for a branch question that was never shown. -/
def c7Submission : TallySubmission :=
  ⟨"resp-c7", 0, 60000,
   [⟨⟨"attention_check", "Pick one", "MULTIPLE_CHOICE"⟩, .vNull⟩]⟩

/-- Submission containing no attention-check field at all. -/
def c7NoFieldSubmission : TallySubmission :=
  ⟨"resp-w7a", 0, 60000,
   [⟨⟨"q_color", "Favorite color", "INPUT_TEXT"⟩, .vStr "blue"⟩]⟩

/-- Submission whose label-matched attention field is present but carries a
null value, so no answered attention field exists. -/
def c7UnansweredLabelSubmission : TallySubmission :=
  ⟨"resp-w7b", 0, 60000,
   [⟨⟨"q_attn", "Have you been paying attention?", "MULTIPLE_CHOICE"⟩, .vNull⟩]⟩

/-- Valid-looking submission with an email field, used for the storage
idempotency witness. -/
def c8Submission : TallySubmission :=
  ⟨"resp-w8", 0, 60000, [⟨⟨"q1", "Your email", "INPUT_EMAIL"⟩, .vStr "a@x.com"⟩]⟩

/-- Submission from which no email can be extracted. -/
def c9Submission : TallySubmission :=
  ⟨"resp-w9", 0, 60000, [⟨⟨"q_color", "Favorite color", "INPUT_TEXT"⟩, .vStr "blue"⟩]⟩

/-- Submission with an email but no answered attention field: the
label-pattern classifier marks it attention_fail. -/
def c10Submission : TallySubmission :=
  ⟨"resp-w10", 0, 60000, [⟨⟨"q1", "Your email", "INPUT_EMAIL"⟩, .vStr "b@x.com"⟩]⟩

/-! Helper lemmas shared by the claim theorems. -/

lemma fieldId_check_true_of_none {fields : List TallyAnswer}
    (h : FieldIdVariant.findAttentionField fields = none) :
    FieldIdVariant.checkAttentionAnswer fields = true := by
  unfold FieldIdVariant.checkAttentionAnswer
  rw [h]

lemma fieldId_check_true_of_token {fields : List TallyAnswer} {f : TallyAnswer}
    (h1 : FieldIdVariant.findAttentionField fields = some f)
    (h2 : normalizeTallyValue f.value = "1") :
    FieldIdVariant.checkAttentionAnswer fields = true := by
  unfold FieldIdVariant.checkAttentionAnswer
  rw [h1]
  show (normalizeTallyValue f.value == FieldIdVariant.ATTENTION_CHECK_CORRECT_ANSWER ||
    jsIncludes (normalizeTallyValue f.value) "1" ||
    jsIncludes (jsToLower (normalizeTallyValue f.value)) "option 1") = true
  rw [h2]
  decide

lemma label_check_false_of_none {fields : List TallyAnswer}
    (h : LabelVariant.findAttentionField fields = none) :
    LabelVariant.checkAttentionAnswer fields = false := by
  unfold LabelVariant.checkAttentionAnswer
  rw [h]

lemma label_check_true_of_yesId {fields : List TallyAnswer} {f : TallyAnswer}
    (h1 : LabelVariant.findAttentionField fields = some f)
    (h2 : LabelVariant.yesOptionIds.contains (normalizeTallyValueNoObj f.value) = true) :
    LabelVariant.checkAttentionAnswer fields = true := by
  unfold LabelVariant.checkAttentionAnswer
  rw [h1]
  exact h2

lemma fieldId_validate_eq_valid (dup : String → Bool) (s : TallySubmission)
    (hdup : ∀ e, dup e = false)
    (hc : FieldIdVariant.checkAttentionAnswer s.fields = true) :
    FieldIdVariant.validateSubmission dup s =
      ⟨Classification.valid, "All validation checks passed"⟩ := by
  unfold FieldIdVariant.validateSubmission
  cases he : extractEmail s.fields with
  | none => simp [hc]
  | some e => simp [hc, hdup e]

lemma fieldId_validate_eq_attnFail (dup : String → Bool) (s : TallySubmission)
    (hc : FieldIdVariant.checkAttentionAnswer s.fields = false) :
    (FieldIdVariant.validateSubmission dup s).classification = Classification.attention_fail
    ∨ (FieldIdVariant.validateSubmission dup s).classification = Classification.duplicate := by
  unfold FieldIdVariant.validateSubmission
  cases he : extractEmail s.fields with
  | none => simp [hc]
  | some e =>
    by_cases hd : (e != "" && dup e) = true
    · simp [hd]
    · simp only [Bool.not_eq_true] at hd
      simp [hd, hc]

lemma label_validate_eq_valid (dup : String → Bool) (s : TallySubmission)
    (hdup : ∀ e, dup e = false)
    (hc : LabelVariant.checkAttentionAnswer s.fields = true) :
    LabelVariant.validateSubmission dup s =
      ⟨Classification.valid, "All validation checks passed"⟩ := by
  unfold LabelVariant.validateSubmission
  cases he : extractEmail s.fields with
  | none => simp [hc]
  | some e => simp [hc, hdup e]

lemma label_validate_eq_attnFail (dup : String → Bool) (s : TallySubmission)
    (hdup : ∀ e, dup e = false)
    (hc : LabelVariant.checkAttentionAnswer s.fields = false) :
    LabelVariant.validateSubmission dup s =
      ⟨Classification.attention_fail, "Failed attention check question"⟩ := by
  unfold LabelVariant.validateSubmission
  cases he : extractEmail s.fields with
  | none => simp [hc]
  | some e => simp [hc, hdup e]

/-! Claim theorems. -/

/-- C1.  The claim asserts that re-processing the identical INSERT payload is
rejected by the idempotency check.  On the code this fails: the check reads
the promo_code and email_sent columns of the payload record, which for an
INSERT event hold the at-insert defaults, so both deliveries of the identical
payload pass the check; two codes are minted, two reward emails are sent, and
the second delivery even reports a fresh reward rather than an
already-processed response. -/
theorem c1_double_delivery_mints_twice :
    (SupaRoute.POST (Except.ok "SURVEY-AAA111") true c1Payload c1State).1 =
      SupaRoute.SupaResponse.rewarded "SURVEY-AAA111" true
    ∧ (SupaRoute.POST (Except.ok "SURVEY-BBB222") true c1Payload
        (SupaRoute.POST (Except.ok "SURVEY-AAA111") true c1Payload c1State).2).1 =
      SupaRoute.SupaResponse.rewarded "SURVEY-BBB222" true
    ∧ (SupaRoute.POST (Except.ok "SURVEY-BBB222") true c1Payload
        (SupaRoute.POST (Except.ok "SURVEY-AAA111") true c1Payload c1State).2).2.mintedCodes =
      ["SURVEY-AAA111", "SURVEY-BBB222"]
    ∧ (SupaRoute.POST (Except.ok "SURVEY-BBB222") true c1Payload
        (SupaRoute.POST (Except.ok "SURVEY-AAA111") true c1Payload c1State).2).2.rewardEmailsSent =
      ["a@x.com", "a@x.com"] := by
  refine ⟨rfl, rfl, by decide, by decide⟩

/-- C2 counterexample.  In the label-pattern variant a submission whose
answered attention-check answer normalizes to the configured correct token
Yes is nonetheless classified attention_fail, because the code compares the
answer against the four Yes option UUIDs, never against the token. -/
theorem c2_token_answer_fails_label_variant :
    (LabelVariant.findAttentionField c2Submission.fields).map
        (fun f => normalizeTallyValueNoObj f.value) =
      some LabelVariant.ATTENTION_CHECK_CORRECT_ANSWER
    ∧ (LabelVariant.validateSubmission (fun _ => false) c2Submission).classification =
      Classification.attention_fail := by
  refine ⟨by decide, by decide⟩

/-- C2 amended.  Holding duplicate status not-duplicate: in the field-id
variant a normalized attention answer equal to the configured token 1 rules
out attention_fail; in the label-pattern variant what rules out attention_fail
is equality with one of the four known Yes option UUIDs, not the configured
token Yes (which fails, see the counterexample). -/
theorem c2_correct_token_not_attention_fail (dup : String → Bool)
    (s t : TallySubmission) (f g : TallyAnswer)
    (hdup : ∀ e, dup e = false)
    (h1 : FieldIdVariant.findAttentionField s.fields = some f)
    (h2 : normalizeTallyValue f.value = "1")
    (h3 : LabelVariant.findAttentionField t.fields = some g)
    (h4 : LabelVariant.yesOptionIds.contains (normalizeTallyValueNoObj g.value) = true) :
    (FieldIdVariant.validateSubmission dup s).classification ≠ Classification.attention_fail
    ∧ (LabelVariant.validateSubmission dup t).classification ≠ Classification.attention_fail := by
  constructor
  · rw [fieldId_validate_eq_valid dup s hdup (fieldId_check_true_of_token h1 h2)]
    decide
  · rw [label_validate_eq_valid dup t hdup (label_check_true_of_yesId h3 h4)]
    decide

/-- C2 witness: concrete submissions exercising the two variants. -/
theorem c2_correct_token_witness :
    (FieldIdVariant.validateSubmission (fun _ => false) c2FieldIdSubmission).classification ≠
      Classification.attention_fail
    ∧ (LabelVariant.validateSubmission (fun _ => false) c2LabelSubmission).classification ≠
      Classification.attention_fail :=
  c2_correct_token_not_attention_fail (fun _ => false) c2FieldIdSubmission
    c2LabelSubmission c2FieldIdAnswer c2LabelAnswer (fun _ => rfl) rfl rfl rfl rfl

/-- C3 counterexample.  An answer list contains an email-typed field with a
string value, yet extractEmail returns none: an earlier field whose id
contains email wins the first-match scan and its value is not a string.  The
result therefore does depend on the identifiers and labels of other fields. -/
theorem c3_email_typed_field_not_returned :
    (c3Fields.any (fun f => f.field.type == "INPUT_EMAIL")) = true
    ∧ extractEmail c3Fields = none := by
  refine ⟨by decide, by decide⟩

/-- C3 amended.  If the email-typed field with a plain string value is the
first field matching any of the three email criteria (type, id substring,
label substring), extractEmail returns its value lower-cased and trimmed. -/
theorem c3_extractEmail_first_match (pre post : List TallyAnswer)
    (f : TallyAnswer) (v : String)
    (h1 : f.field.type = "INPUT_EMAIL")
    (h2 : f.value = TallyValue.vStr v)
    (h3 : ∀ g ∈ pre, isEmailField g = false) :
    extractEmail (pre ++ f :: post) = some (jsTrim (jsToLower v)) := by
  have hf : isEmailField f = true := by
    unfold isEmailField
    rw [h1]
    simp
  have hfind : (pre ++ f :: post).find? isEmailField = some f := by
    induction pre with
    | nil =>
      simpa using List.find?_cons_of_pos post hf
    | cons a as ih =>
      have ha : isEmailField a = false := h3 a (by simp)
      have ih2 := ih (fun g hg => h3 g (by simp [hg]))
      simpa [List.find?_cons_of_neg, ha] using ih2
  unfold extractEmail
  rw [hfind]
  simp only [h2]

/-- C3 witness: a lone email-typed field. -/
theorem c3_extractEmail_witness :
    extractEmail ([] ++ c3EmailAnswer :: []) = some (jsTrim (jsToLower " A@X.com ")) :=
  c3_extractEmail_first_match [] [] c3EmailAnswer " A@X.com " rfl rfl
    (fun g hg => absurd hg (List.not_mem_nil g))

/-- C4 counterexample.  With the Mailgun API key unset, both send functions
throw (modeled by Except.error) instead of returning a result record: the
configuration lookups run before the try block in the source. -/
theorem c4_missing_key_throws :
    Mail.sendRewardEmail c4EnvMissingKey "user@example.com" "SURVEY-ABC123"
        (Except.ok "mid-1") =
      Except.error "Missing MAILGUN_API_KEY environment variable"
    ∧ Mail.sendAbuseEmail c4EnvMissingKey "user@example.com" (Except.ok "mid-2") =
      Except.error "Missing MAILGUN_API_KEY environment variable" := by
  exact ⟨rfl, rfl⟩

/-- C4 amended.  When the Mailgun API key and domain are both configured,
sendRewardEmail and sendAbuseEmail never throw outward: each returns a result
record whose success flag is true, or false with the failure captured in its
error field.  Missing configuration, by contrast, throws (see the
counterexample). -/
theorem c4_no_throw_when_configured (env : Mail.MailgunEnv) (k d email code : String)
    (outcome : Except String String)
    (hk : env.apiKey = some k) (hd : env.domain = some d) :
    resultWellFormed (Mail.sendRewardEmail env email code outcome) = true
    ∧ resultWellFormed (Mail.sendAbuseEmail env email outcome) = true := by
  unfold Mail.sendRewardEmail Mail.sendAbuseEmail Mail.getMailgunClient
    Mail.getFromEmail Mail.getDomain
  rw [hk, hd]
  cases env.fromEmail <;> cases outcome <;> simp [resultWellFormed]

/-- C4 witness: a configured environment with a failing provider call. -/
theorem c4_no_throw_witness :
    resultWellFormed (Mail.sendRewardEmail c4EnvFull "user@example.com" "SURVEY-XYZ789"
        (Except.error "connection timeout")) = true
    ∧ resultWellFormed (Mail.sendAbuseEmail c4EnvFull "user@example.com"
        (Except.error "connection timeout")) = true :=
  c4_no_throw_when_configured c4EnvFull "key-123" "mg.example.com" "user@example.com"
    "SURVEY-XYZ789" (Except.error "connection timeout") rfl rfl

/-- C5 counterexample.  The first creation attempt fails with an
invalid-request error that is not a code collision, yet createPromoCode
retries (two create calls) and succeeds, instead of propagating the failure
uncaught as the claim requires for non-collision failures. -/
theorem c5_non_collision_also_retries :
    c5Attempt (StripeM.firstCode "00aaaaaa") =
      StripeM.StripeOutcome.errInvalidRequest false "No such coupon: co_missing"
    ∧ StripeM.createPromoCode c5Env c5Attempt "00aaaaaa" "00bbbbbbbb" =
      (Except.ok "SURVEY-BBBBBBBB", 2) := by
  exact ⟨rfl, rfl⟩

/-- C5 amended.  With the Stripe environment configured, createPromoCode
performs a second create call if and only if the first attempt fails with a
StripeInvalidRequestError — the class code collisions raise, but also raised
by other invalid requests; the retry uses the longer-suffix code, the retry
outcome (success or either error class) is final, and failures of any other
class on the first attempt propagate uncaught after a single call. -/
theorem c5_retry_on_invalid_request (env : StripeM.StripeEnv) (sk cid : String)
    (attempt : String → StripeM.StripeOutcome) (r1 r2 : String)
    (hk : env.secretKey = some sk) (hc : env.couponId = some cid) :
    ((StripeM.createPromoCode env attempt r1 r2).2 = 2 ↔
      StripeM.isInvalidRequest (attempt (StripeM.firstCode r1)) = true)
    ∧ (StripeM.isInvalidRequest (attempt (StripeM.firstCode r1)) = false →
        StripeM.createPromoCode env attempt r1 r2 =
          (StripeM.outcomeToResult (attempt (StripeM.firstCode r1)), 1))
    ∧ (StripeM.isInvalidRequest (attempt (StripeM.firstCode r1)) = true →
        StripeM.createPromoCode env attempt r1 r2 =
          (StripeM.outcomeToResult (attempt (StripeM.retryCode r2)), 2)) := by
  unfold StripeM.createPromoCode
  rw [hk, hc]
  cases h1 : attempt (StripeM.firstCode r1) <;>
    simp [StripeM.isInvalidRequest, StripeM.outcomeToResult]

/-- C5 witness: configured environment, collision-free provider. -/
theorem c5_retry_witness :
    ((StripeM.createPromoCode c5EnvW c5AttemptW "00cccccc" "00dddddddd").2 = 2 ↔
      StripeM.isInvalidRequest (c5AttemptW (StripeM.firstCode "00cccccc")) = true)
    ∧ (StripeM.isInvalidRequest (c5AttemptW (StripeM.firstCode "00cccccc")) = false →
        StripeM.createPromoCode c5EnvW c5AttemptW "00cccccc" "00dddddddd" =
          (StripeM.outcomeToResult (c5AttemptW (StripeM.firstCode "00cccccc")), 1))
    ∧ (StripeM.isInvalidRequest (c5AttemptW (StripeM.firstCode "00cccccc")) = true →
        StripeM.createPromoCode c5EnvW c5AttemptW "00cccccc" "00dddddddd" =
          (StripeM.outcomeToResult (c5AttemptW (StripeM.retryCode "00dddddddd")), 2)) :=
  c5_retry_on_invalid_request c5EnvW "sk_test_w5" "co_basic" c5AttemptW
    "00cccccc" "00dddddddd" rfl rfl

/-- C6 counterexample.  A submission that is both faster than 10 seconds and
carries a filled honeypot is classified bot by the honeypot rule, whose reason
does not include the measured elapsed seconds: the code evaluates the honeypot
check before the timing check, opposite to the order the claim asserts. -/
theorem c6_honeypot_reason_wins :
    BotVariant.checkHoneypot c6Submission.fields = true
    ∧ BotVariant.calculateSubmissionTimeMs c6Submission.createdAtMs
        c6Submission.submittedAtMs = 3000
    ∧ (3000 : Int) < BotVariant.MIN_SUBMISSION_TIME_SECONDS * 1000
    ∧ BotVariant.validateSubmission (fun _ => false) c6Submission =
      ⟨Classification.bot, "Honeypot field was filled"⟩
    ∧ jsIncludes "Honeypot field was filled" (BotVariant.toFixed1Ms 3000) = false := by
  refine ⟨by decide, by decide, by decide, by decide, by decide⟩

/-- C6 amended.  The honeypot rule is evaluated before the bot-timing rule:
for every submission whose elapsed time is under 10 seconds and whose honeypot
field carries a truthy value, the outcome is bot with the honeypot reason
(which carries no elapsed-seconds figure); the timing reason appears only when
the honeypot is empty. -/
theorem c6_honeypot_evaluated_first (dup : String → Bool) (s : TallySubmission)
    (hH : BotVariant.checkHoneypot s.fields = true)
    (_hT : BotVariant.calculateSubmissionTimeMs s.createdAtMs s.submittedAtMs <
      BotVariant.MIN_SUBMISSION_TIME_SECONDS * 1000) :
    BotVariant.validateSubmission dup s =
      ⟨Classification.bot, "Honeypot field was filled"⟩ := by
  unfold BotVariant.validateSubmission
  rw [hH]
  simp

/-- C6 witness: a fast submission with a filled honeypot. -/
theorem c6_honeypot_witness :
    BotVariant.validateSubmission (fun _ => false) c6SubmissionW =
      ⟨Classification.bot, "Honeypot field was filled"⟩ :=
  c6_honeypot_evaluated_first (fun _ => false) c6SubmissionW (by decide) (by decide)

/-- C7 counterexample.  A submission containing no answered attention-check
field — the configured field is present but its value is null — is classified
attention_fail by the field-id variant, not treated as passed: the fail-open
path triggers only when no field matches at all, while a present null-valued
field is normalized to the string null and fails the comparison. -/
theorem c7_unanswered_field_fails_fieldId_variant :
    (c7Submission.fields.all (fun f => !(isAnswered f.value))) = true
    ∧ (FieldIdVariant.validateSubmission (fun _ => false) c7Submission).classification =
      Classification.attention_fail := by
  refine ⟨by decide, by decide⟩

/-- C7 amended.  Holding duplicate status false: the field-id variant is
fail-open for submissions in which no field matches the attention-check
criteria at all (outcome valid), while the label-pattern variant is
fail-closed for submissions with no answered attention field (outcome
attention_fail).  When the field-id variant finds the field with an unanswered
null value it generally fails it too (see the counterexample). -/
theorem c7_fail_open_vs_fail_closed (dup : String → Bool) (s t : TallySubmission)
    (hdup : ∀ e, dup e = false)
    (hA : FieldIdVariant.findAttentionField s.fields = none)
    (hB : LabelVariant.findAttentionField t.fields = none) :
    (FieldIdVariant.validateSubmission dup s).classification = Classification.valid
    ∧ (LabelVariant.validateSubmission dup t).classification = Classification.attention_fail := by
  constructor
  · rw [fieldId_validate_eq_valid dup s hdup (fieldId_check_true_of_none hA)]
  · rw [label_validate_eq_attnFail dup t hdup (label_check_false_of_none hB)]

/-- C7 witness: no attention field at all for the field-id variant, an
unanswered one for the label variant. -/
theorem c7_policy_witness :
    (FieldIdVariant.validateSubmission (fun _ => false) c7NoFieldSubmission).classification =
      Classification.valid
    ∧ (LabelVariant.validateSubmission (fun _ => false)
        c7UnansweredLabelSubmission).classification = Classification.attention_fail :=
  c7_fail_open_vs_fail_closed (fun _ => false) c7NoFieldSubmission
    c7UnansweredLabelSubmission (fun _ => rfl) rfl rfl

lemma any_rid_false_of_responseCount_zero (db : List Store.SubmissionRow) (rid : String)
    (h : responseCount db rid = 0) :
    (db.any fun x => x.tally_response_id == rid) = false := by
  unfold responseCount at h
  rw [List.length_eq_zero] at h
  rw [List.any_eq_false]
  intro x hx
  have := List.filter_eq_nil_iff.mp h x hx
  simpa using this

lemma responseCount_insert_ok (db db2 : List Store.SubmissionRow)
    (r : Store.SubmissionRow) (h : Store.insertSubmission db r = Except.ok db2) :
    responseCount db2 r.tally_response_id = 1 := by
  unfold Store.insertSubmission at h
  by_cases hany : (db.any fun x => x.tally_response_id == r.tally_response_id) = true
  · rw [if_pos hany] at h
    exact absurd h (by simp)
  · rw [Bool.not_eq_true] at hany
    rw [hany] at h
    simp only [Bool.false_eq_true, if_false, Except.ok.injEq] at h
    subst h
    unfold responseCount
    rw [List.filter_append]
    have hnil : db.filter (fun x => x.tally_response_id == r.tally_response_id) = [] := by
      rw [List.filter_eq_nil_iff]
      intro x hx
      have := (List.any_eq_false.mp hany) x hx
      simpa using this
    simp [hnil]

lemma responseCount_POST_le
    (classify : (String → Bool) → TallySubmission → ClassificationResult)
    (s : TallySubmission) (db : List Store.SubmissionRow) :
    responseCount (TallyRoute.POST classify s db).2.1 s.responseId ≤
      max 1 (responseCount db s.responseId) := by
  unfold TallyRoute.POST
  cases he : extractEmail s.fields with
  | none => exact Nat.le_max_right _ _
  | some email =>
    by_cases hemp : (email == "") = true
    · simp only [hemp, if_true]
      exact Nat.le_max_right _ _
    · rw [Bool.not_eq_true] at hemp
      simp only [hemp, Bool.false_eq_true, if_false]
      cases hcl : (classify (Store.checkDuplicateEmail db) s).classification with
      | valid =>
        cases hins : Store.insertSubmission db
            (TallyRoute.mkRow email s Classification.valid
              (classify (Store.checkDuplicateEmail db) s).reason) with
        | ok db2 =>
          simp only [hins]
          have := responseCount_insert_ok db db2 _ hins
          simp only [TallyRoute.mkRow] at this
          rw [this]
          exact Nat.le_max_left _ _
        | error e =>
          simp only [hins]
          exact Nat.le_max_right _ _
      | duplicate => exact Nat.le_max_right _ _
      | attention_fail =>
        cases hins : Store.insertSubmission db
            (TallyRoute.mkRow email s Classification.attention_fail
              (classify (Store.checkDuplicateEmail db) s).reason) with
        | ok db2 =>
          simp only [hins]
          have := responseCount_insert_ok db db2 _ hins
          simp only [TallyRoute.mkRow] at this
          rw [this]
          exact Nat.le_max_left _ _
        | error e =>
          simp only [hins]
          exact Nat.le_max_right _ _
      | bot => exact Nat.le_max_right _ _

/-- C8.  At-most-once storage per physical form submission: starting from a
store holding no row with the external response id of the payload, processing
the same form-webhook payload twice leaves at most one row with that id —
the second insert is rejected by the uniqueness constraint on
tally_response_id rather than storing a second row. -/
theorem c8_at_most_once_storage
    (classify : (String → Bool) → TallySubmission → ClassificationResult)
    (s : TallySubmission) (db : List Store.SubmissionRow)
    (h : responseCount db s.responseId = 0) :
    responseCount
      (TallyRoute.POST classify s (TallyRoute.POST classify s db).2.1).2.1
      s.responseId ≤ 1 := by
  have h1 := responseCount_POST_le classify s db
  have h2 := responseCount_POST_le classify s (TallyRoute.POST classify s db).2.1
  omega

/-- C8 witness: a valid submission delivered twice into an empty store. -/
theorem c8_at_most_once_witness :
    responseCount
      (TallyRoute.POST FieldIdVariant.validateSubmission c8Submission
        (TallyRoute.POST FieldIdVariant.validateSubmission c8Submission []).2.1).2.1
      c8Submission.responseId ≤ 1 :=
  c8_at_most_once_storage FieldIdVariant.validateSubmission c8Submission [] (by decide)

/-- C9.  When no email is extractable, both three-way classifier variants skip
the duplicate lookup entirely: the result is independent of the duplicate
oracle (the store is never queried), the outcome is never duplicate, and a
passing attention check yields valid. -/
theorem c9_no_email_skips_duplicate_lookup (s : TallySubmission)
    (d1 d2 : String → Bool) (h : extractEmail s.fields = none) :
    (FieldIdVariant.validateSubmission d1 s = FieldIdVariant.validateSubmission d2 s)
    ∧ ((FieldIdVariant.validateSubmission d1 s).classification ≠ Classification.duplicate)
    ∧ (FieldIdVariant.checkAttentionAnswer s.fields = true →
        (FieldIdVariant.validateSubmission d1 s).classification = Classification.valid)
    ∧ (LabelVariant.validateSubmission d1 s = LabelVariant.validateSubmission d2 s)
    ∧ ((LabelVariant.validateSubmission d1 s).classification ≠ Classification.duplicate)
    ∧ (LabelVariant.checkAttentionAnswer s.fields = true →
        (LabelVariant.validateSubmission d1 s).classification = Classification.valid) := by
  unfold FieldIdVariant.validateSubmission LabelVariant.validateSubmission
  rw [h]
  by_cases hA : FieldIdVariant.checkAttentionAnswer s.fields = true
  · by_cases hB : LabelVariant.checkAttentionAnswer s.fields = true
    · simp [hA, hB]
    · rw [Bool.not_eq_true] at hB
      simp [hA, hB]
  · rw [Bool.not_eq_true] at hA
    by_cases hB : LabelVariant.checkAttentionAnswer s.fields = true
    · simp [hA, hB]
    · rw [Bool.not_eq_true] at hB
      simp [hA, hB]

/-- C9 witness: a submission with no email-bearing field, against two
duplicate oracles that disagree everywhere. -/
theorem c9_no_email_witness :
    (FieldIdVariant.validateSubmission (fun _ => false) c9Submission =
      FieldIdVariant.validateSubmission (fun _ => true) c9Submission)
    ∧ ((FieldIdVariant.validateSubmission (fun _ => false) c9Submission).classification ≠
        Classification.duplicate)
    ∧ (FieldIdVariant.checkAttentionAnswer c9Submission.fields = true →
        (FieldIdVariant.validateSubmission (fun _ => false) c9Submission).classification =
          Classification.valid)
    ∧ (LabelVariant.validateSubmission (fun _ => false) c9Submission =
        LabelVariant.validateSubmission (fun _ => true) c9Submission)
    ∧ ((LabelVariant.validateSubmission (fun _ => false) c9Submission).classification ≠
        Classification.duplicate)
    ∧ (LabelVariant.checkAttentionAnswer c9Submission.fields = true →
        (LabelVariant.validateSubmission (fun _ => false) c9Submission).classification =
          Classification.valid) :=
  c9_no_email_skips_duplicate_lookup c9Submission (fun _ => false) (fun _ => true) rfl

/-- C10.  The attention-fail path of the form-webhook handler persists the row
and attempts the abuse email but never records the notification in the store:
the final store is exactly the old store plus the newly inserted row, whose
email_sent, email_type and promo_code columns keep their schema defaults
(false, null, null) — markAbuseEmailSent exists in the store adapter but no
handler invokes it. -/
theorem c10_attention_fail_keeps_defaults
    (classify : (String → Bool) → TallySubmission → ClassificationResult)
    (s : TallySubmission) (db : List Store.SubmissionRow) (email : String)
    (h1 : extractEmail s.fields = some email) (h2 : email ≠ "")
    (h3 : (classify (Store.checkDuplicateEmail db) s).classification =
      Classification.attention_fail)
    (h4 : responseCount db s.responseId = 0) :
    TallyRoute.POST classify s db =
      (TallyRoute.TallyResponse.okClassified Classification.attention_fail,
       db ++ [{ TallyRoute.mkRow email s Classification.attention_fail
                  (classify (Store.checkDuplicateEmail db) s).reason
                with id := toString db.length }],
       1)
    ∧ (TallyRoute.mkRow email s Classification.attention_fail
        (classify (Store.checkDuplicateEmail db) s).reason).email_sent = false
    ∧ (TallyRoute.mkRow email s Classification.attention_fail
        (classify (Store.checkDuplicateEmail db) s).reason).email_type = none
    ∧ (TallyRoute.mkRow email s Classification.attention_fail
        (classify (Store.checkDuplicateEmail db) s).reason).promo_code = none := by
  have hany := any_rid_false_of_responseCount_zero db s.responseId h4
  have hbeq : (email == "") = false := beq_eq_false_iff_ne.mpr h2
  refine ⟨?_, rfl, rfl, rfl⟩
  unfold TallyRoute.POST
  rw [h1]
  simp only [hbeq, Bool.false_eq_true, if_false, h3]
  unfold Store.insertSubmission
  simp only [TallyRoute.mkRow, hany, Bool.false_eq_true, if_false]

/-- C10 witness: the label-pattern classifier marks an answered-attention-free
submission attention_fail; the handler inserts it with default flags into an
empty store and attempts one abuse email. -/
theorem c10_attention_fail_witness :
    TallyRoute.POST LabelVariant.validateSubmission c10Submission [] =
      (TallyRoute.TallyResponse.okClassified Classification.attention_fail,
       [] ++ [{ TallyRoute.mkRow "b@x.com" c10Submission Classification.attention_fail
                  (LabelVariant.validateSubmission (Store.checkDuplicateEmail []) c10Submission).reason
                with id := toString (List.length ([] : List Store.SubmissionRow)) }],
       1)
    ∧ (TallyRoute.mkRow "b@x.com" c10Submission Classification.attention_fail
        (LabelVariant.validateSubmission (Store.checkDuplicateEmail []) c10Submission).reason).email_sent = false
    ∧ (TallyRoute.mkRow "b@x.com" c10Submission Classification.attention_fail
        (LabelVariant.validateSubmission (Store.checkDuplicateEmail []) c10Submission).reason).email_type = none
    ∧ (TallyRoute.mkRow "b@x.com" c10Submission Classification.attention_fail
        (LabelVariant.validateSubmission (Store.checkDuplicateEmail []) c10Submission).reason).promo_code = none :=
  c10_attention_fail_keeps_defaults LabelVariant.validateSubmission c10Submission []
    "b@x.com" rfl (by decide) rfl (by decide)
